import Mathlib

set_option maxRecDepth 100000

/-!
Shallow embedding of the prediction service in src/ai_service/main.py.

The service exposes two routes: GET /health returning a constant body, and
POST /predict taking two uploaded files, validating them, and answering with
a deterministic probability map over 14 fixed labels.

Modelling decisions, each tied to the source:
  * An uploaded file (FastAPI UploadFile) is a declared filename
    (Optional[str] in Python, hence Option String) plus its raw bytes,
    modelled as a list of byte values.
  * PIL image decoding (Image.open(...).convert("RGB")) is third-party code;
    the embedding abstracts it as a boolean predicate on the byte content,
    passed as a parameter. The handler only observes whether decoding
    succeeds.
  * numpy np.random.default_rng(seed).random(k) is third-party code; the
    embedding abstracts it as a function from the integer seed and the draw
    index to a rational number. numpy documents each draw to lie in [0,1);
    theorems that need this take it as a hypothesis.
  * Python floats are modelled as rationals; the literals 0.92, 0.78, 0.12,
    0.08, 0.5 of the source are written as the exact rationals mkRat 92 100,
    mkRat 78 100, mkRat 12 100, mkRat 8 100, mkRat 5 10.
  * Python str.lower() is modelled as mapping Char.toLower over the
    characters; the two agree on ASCII, and the patterns image1, image2,
    image3 are ASCII.
  * A Python dict built by inserting every label once in CLASS_LABELS order
    (later assignments to existing keys keep the insertion order) is
    modelled as the association list in that order.
-/

/-- One uploaded file: declared filename and raw byte content. -/
structure Upload where
  filename : Option String
  content : List Nat
deriving DecidableEq

/-- Outcome of the /predict handler: either an HTTPException carrying a
status code and a detail string only, or a JSON body with the success flag,
the findings list and the probability map (as the ordered key/value list the
handler builds). -/
inductive Response where
  | error (status : Nat) (detail : String)
  | ok (success : Bool) (findings : List (String × ℚ)) (probabilities : List (String × ℚ))
deriving DecidableEq

/-- The 14 placeholder class labels, in source order. -/
def CLASS_LABELS : List String :=
  ["Atelectasis", "Cardiomegaly", "Consolidation", "Edema", "Effusion",
   "Emphysema", "Fibrosis", "Hernia", "Infiltration", "Mass",
   "Nodule", "Pleural_Thickening", "Pneumonia", "Pneumothorax"]

/-- Does the pattern match the haystack starting at its head? -/
def charsMatchAt : List Char → List Char → Bool
  | [], _ => true
  | _ :: _, [] => false
  | a :: as, b :: bs => a == b && charsMatchAt as bs

/-- Does the pattern occur as a contiguous run anywhere in the haystack?
Embeds the Python substring test
  pat in hay. -/
def charsHaveSub (pat : List Char) : List Char → Bool
  | [] => charsMatchAt pat []
  | c :: rest => charsMatchAt pat (c :: rest) || charsHaveSub pat rest

/-- Python
  pat in s
on strings: contiguous substring containment. -/
def strContains (s : List Char) (pat : String) : Bool :=
  charsHaveSub pat.toList s

/-- The lowercased declared filename: Python (cxr.filename or "").lower().
A missing filename and an empty one both give the empty string. -/
def lowerName (cxr : Upload) : List Char :=
  (cxr.filename.getD "").toList.map Char.toLower

/-- Seed of the fallback scoring rule:
  seed = len(cxr_bytes) + len(ecg_bytes). -/
def fallbackSeed (cxr ecg : Upload) : Nat :=
  cxr.content.length + ecg.content.length

/-- The branch condition selecting one of the canned filename paths
(lines 55 and 70 of the source): the lowercased filename contains
image1, image2 or image3. -/
def cannedName (name : List Char) : Bool :=
  strContains name "image1" || strContains name "image2" || strContains name "image3"

/-- The probability map of the image1/image2 branch: the dict starts with
every label at 0.12 in CLASS_LABELS order, then the assignments to the
existing keys Cardiomegaly (0.92) and Effusion (0.78) update the values in
place without changing the insertion order. -/
def abnormalProbs : List (String × ℚ) :=
  CLASS_LABELS.map (fun label =>
    (label, if label = "Cardiomegaly" then mkRat 92 100
            else if label = "Effusion" then mkRat 78 100
            else mkRat 12 100))

/-- The findings of the image1/image2 branch: the entries of the probability
map with value at least 0.5, in map order. -/
def abnormalFindings : List (String × ℚ) :=
  abnormalProbs.filter (fun kv => decide (mkRat 5 10 ≤ kv.2))

/-- The probability map of the image3 branch: every label at 0.08. -/
def normalProbs : List (String × ℚ) :=
  CLASS_LABELS.map (fun label => (label, mkRat 8 100))

/-- The label/score pairs of the fallback branch: draw i of the generator
seeded with seed is paired with label i, in CLASS_LABELS order. -/
def fallbackPairs (rng : Nat → Nat → ℚ) (seed : Nat) : List (String × ℚ) :=
  CLASS_LABELS.zip ((List.range CLASS_LABELS.length).map (fun i => rng seed i))

/-- The findings of the fallback branch: the pairs with score at least 0.5,
in order. -/
def fallbackFindings (rng : Nat → Nat → ℚ) (seed : Nat) : List (String × ℚ) :=
  (fallbackPairs rng seed).filter (fun kv => decide (mkRat 5 10 ≤ kv.2))

/-- The /predict handler.

decodable abstracts PIL decoding of the image bytes; rng abstracts
np.random.default_rng: rng seed i is the i-th draw of the generator
seeded with seed. Everything else is translated line by line from
src/ai_service/main.py. -/
def predict (decodable : List Nat → Bool) (rng : Nat → Nat → ℚ)
    (cxr ecg : Upload) : Response :=
  if decodable cxr.content = false then
    Response.error 400 "Invalid CXR image"
  else if ecg.content.length = 0 then
    Response.error 400 "Invalid ECG data"
  else
    let name := lowerName cxr
    if strContains name "image1" || strContains name "image2" then
      Response.ok true abnormalFindings abnormalProbs
    else if strContains name "image3" then
      Response.ok true [] normalProbs
    else
      Response.ok true (fallbackFindings rng (fallbackSeed cxr ecg))
        (fallbackPairs rng (fallbackSeed cxr ecg))

/-- The /health handler body. -/
def health : List (String × String) := [("status", "ok")]

/-- A request to the service. -/
inductive Request where
  | healthReq
  | predictReq (cxr ecg : Upload)

/-- A reply from the service: either the health body with its status code,
or a /predict response. -/
inductive Reply where
  | healthReply (status : Nat) (body : List (String × String))
  | predictReply (r : Response)
deriving DecidableEq

/-- Stateless per-request dispatch: the app holds no mutable state, so a
request is handled by the matching route handler alone. -/
def handle (decodable : List Nat → Bool) (rng : Nat → Nat → ℚ) : Request → Reply
  | Request.healthReq => Reply.healthReply 200 health
  | Request.predictReq cxr ecg => Reply.predictReply (predict decodable rng cxr ecg)

/-- A whole request history is served request by request. -/
def serve (decodable : List Nat → Bool) (rng : Nat → Nat → ℚ)
    (reqs : List Request) : List Reply :=
  reqs.map (handle decodable rng)

/-! Branch characterisation lemmas, one per control-flow path of the
handler. -/

theorem predict_not_decodable (decodable : List Nat → Bool) (rng : Nat → Nat → ℚ)
    (cxr ecg : Upload) (hd : decodable cxr.content = false) :
    predict decodable rng cxr ecg = Response.error 400 "Invalid CXR image" := by
  simp [predict, hd]

theorem predict_empty_ecg (decodable : List Nat → Bool) (rng : Nat → Nat → ℚ)
    (cxr ecg : Upload) (hd : decodable cxr.content = true)
    (he : ecg.content.length = 0) :
    predict decodable rng cxr ecg = Response.error 400 "Invalid ECG data" := by
  simp [predict, hd, he]

theorem predict_abnormal (decodable : List Nat → Bool) (rng : Nat → Nat → ℚ)
    (cxr ecg : Upload) (hd : decodable cxr.content = true)
    (he : ecg.content.length ≠ 0)
    (h12 : (strContains (lowerName cxr) "image1" || strContains (lowerName cxr) "image2") = true) :
    predict decodable rng cxr ecg = Response.ok true abnormalFindings abnormalProbs := by
  simp [predict, hd, he, h12]

theorem predict_normal (decodable : List Nat → Bool) (rng : Nat → Nat → ℚ)
    (cxr ecg : Upload) (hd : decodable cxr.content = true)
    (he : ecg.content.length ≠ 0)
    (h12 : (strContains (lowerName cxr) "image1" || strContains (lowerName cxr) "image2") = false)
    (h3 : strContains (lowerName cxr) "image3" = true) :
    predict decodable rng cxr ecg = Response.ok true [] normalProbs := by
  simp [predict, hd, he, h12, h3]

theorem predict_fallback (decodable : List Nat → Bool) (rng : Nat → Nat → ℚ)
    (cxr ecg : Upload) (hd : decodable cxr.content = true)
    (he : ecg.content.length ≠ 0)
    (h12 : (strContains (lowerName cxr) "image1" || strContains (lowerName cxr) "image2") = false)
    (h3 : strContains (lowerName cxr) "image3" = false) :
    predict decodable rng cxr ecg =
      Response.ok true (fallbackFindings rng (fallbackSeed cxr ecg))
        (fallbackPairs rng (fallbackSeed cxr ecg)) := by
  simp [predict, hd, he, h12, h3]

/-- C1: for every valid /predict request (decodable image, non-empty signal),
the response is a success response whose probabilities list has exactly the
14 labels of CLASS_LABELS as keys, in CLASS_LABELS order, with no extras and
no omissions, and every value lies in [0,1]; this holds on every scoring
path, assuming the generator draws lie in [0,1) as numpy documents. -/
theorem predict_probabilities_complete (decodable : List Nat → Bool)
    (rng : Nat → Nat → ℚ) (cxr ecg : Upload)
    (hrng : ∀ s i, 0 ≤ rng s i ∧ rng s i < 1)
    (hd : decodable cxr.content = true) (he : ecg.content.length ≠ 0) :
    ∃ f ps, predict decodable rng cxr ecg = Response.ok true f ps ∧
      ps.map Prod.fst = CLASS_LABELS ∧
      ∀ kv ∈ ps, 0 ≤ kv.2 ∧ kv.2 ≤ 1 := by
  by_cases h12 : (strContains (lowerName cxr) "image1" ||
      strContains (lowerName cxr) "image2") = true
  · exact ⟨abnormalFindings, abnormalProbs,
      predict_abnormal decodable rng cxr ecg hd he h12, by decide, by decide⟩
  · have h12f : (strContains (lowerName cxr) "image1" ||
        strContains (lowerName cxr) "image2") = false := by
      simpa using h12
    by_cases h3 : strContains (lowerName cxr) "image3" = true
    · exact ⟨[], normalProbs,
        predict_normal decodable rng cxr ecg hd he h12f h3, by decide, by decide⟩
    · have h3f : strContains (lowerName cxr) "image3" = false := by simpa using h3
      refine ⟨fallbackFindings rng (fallbackSeed cxr ecg),
        fallbackPairs rng (fallbackSeed cxr ecg),
        predict_fallback decodable rng cxr ecg hd he h12f h3f, ?_, ?_⟩
      · unfold fallbackPairs
        rw [List.map_fst_zip]
        simp
      · rintro ⟨a, b⟩ hkv
        have hb := (List.of_mem_zip hkv).2
        simp only [List.mem_map, List.mem_range] at hb
        obtain ⟨i, _, rfl⟩ := hb
        exact ⟨(hrng _ i).1, le_of_lt (hrng _ i).2⟩

/-- Witness for C1 at a concrete valid request on the fallback path. -/
theorem predict_probabilities_complete_witness :
    ∃ f ps, predict (fun _ => true) (fun _ _ => mkRat 1 2)
        ⟨some "a.png", [0]⟩ ⟨none, [1]⟩ = Response.ok true f ps ∧
      ps.map Prod.fst = CLASS_LABELS ∧
      ∀ kv ∈ ps, 0 ≤ kv.2 ∧ kv.2 ≤ 1 :=
  predict_probabilities_complete (fun _ => true) (fun _ _ => mkRat 1 2)
    ⟨some "a.png", [0]⟩ ⟨none, [1]⟩
    (fun _ _ => (by decide : (0 : ℚ) ≤ mkRat 1 2 ∧ mkRat 1 2 < 1))
    (by decide) (by decide)

/-- C2: for every valid /predict request, the findings list is exactly the
filter of the probabilities list keeping the entries with value at least
0.5, in probabilities (hence CLASS_LABELS) order, with each confidence score
equal to the corresponding probabilities entry; this holds on every scoring
path. -/
theorem predict_findings_threshold (decodable : List Nat → Bool)
    (rng : Nat → Nat → ℚ) (cxr ecg : Upload)
    (hd : decodable cxr.content = true) (he : ecg.content.length ≠ 0) :
    ∃ f ps, predict decodable rng cxr ecg = Response.ok true f ps ∧
      f = ps.filter (fun kv => decide (mkRat 5 10 ≤ kv.2)) := by
  by_cases h12 : (strContains (lowerName cxr) "image1" ||
      strContains (lowerName cxr) "image2") = true
  · exact ⟨abnormalFindings, abnormalProbs,
      predict_abnormal decodable rng cxr ecg hd he h12, rfl⟩
  · have h12f : (strContains (lowerName cxr) "image1" ||
        strContains (lowerName cxr) "image2") = false := by
      simpa using h12
    by_cases h3 : strContains (lowerName cxr) "image3" = true
    · exact ⟨[], normalProbs,
        predict_normal decodable rng cxr ecg hd he h12f h3, by decide⟩
    · have h3f : strContains (lowerName cxr) "image3" = false := by simpa using h3
      exact ⟨fallbackFindings rng (fallbackSeed cxr ecg),
        fallbackPairs rng (fallbackSeed cxr ecg),
        predict_fallback decodable rng cxr ecg hd he h12f h3f, rfl⟩

/-- Witness for C2 at a concrete valid request on the image3 path. -/
theorem predict_findings_threshold_witness :
    ∃ f ps, predict (fun _ => true) (fun _ _ => mkRat 1 2)
        ⟨some "scan_image3.jpg", [0]⟩ ⟨none, [1]⟩ = Response.ok true f ps ∧
      f = ps.filter (fun kv => decide (mkRat 5 10 ≤ kv.2)) :=
  predict_findings_threshold (fun _ => true) (fun _ _ => mkRat 1 2)
    ⟨some "scan_image3.jpg", [0]⟩ ⟨none, [1]⟩ (by decide) (by decide)

/-- C3: for every valid request whose lowercased filename contains image1 or
image2, the response is the canned abnormal case: Cardiomegaly 0.92,
Effusion 0.78, the other 12 labels 0.12, and the findings are exactly
Cardiomegaly then Effusion with those scores. -/
theorem predict_canned_abnormal (decodable : List Nat → Bool)
    (rng : Nat → Nat → ℚ) (cxr ecg : Upload)
    (hd : decodable cxr.content = true) (he : ecg.content.length ≠ 0)
    (h12 : (strContains (lowerName cxr) "image1" ||
      strContains (lowerName cxr) "image2") = true) :
    predict decodable rng cxr ecg = Response.ok true
      [("Cardiomegaly", mkRat 92 100), ("Effusion", mkRat 78 100)]
      [("Atelectasis", mkRat 12 100), ("Cardiomegaly", mkRat 92 100),
       ("Consolidation", mkRat 12 100), ("Edema", mkRat 12 100),
       ("Effusion", mkRat 78 100), ("Emphysema", mkRat 12 100),
       ("Fibrosis", mkRat 12 100), ("Hernia", mkRat 12 100),
       ("Infiltration", mkRat 12 100), ("Mass", mkRat 12 100),
       ("Nodule", mkRat 12 100), ("Pleural_Thickening", mkRat 12 100),
       ("Pneumonia", mkRat 12 100), ("Pneumothorax", mkRat 12 100)] := by
  rw [predict_abnormal decodable rng cxr ecg hd he h12]
  decide

/-- Witness for C3: Scenario A, filename chest_image1.png. -/
theorem predict_canned_abnormal_witness :
    predict (fun _ => true) (fun _ _ => mkRat 1 2)
      ⟨some "chest_image1.png", [0]⟩ ⟨none, [1]⟩ = Response.ok true
      [("Cardiomegaly", mkRat 92 100), ("Effusion", mkRat 78 100)]
      [("Atelectasis", mkRat 12 100), ("Cardiomegaly", mkRat 92 100),
       ("Consolidation", mkRat 12 100), ("Edema", mkRat 12 100),
       ("Effusion", mkRat 78 100), ("Emphysema", mkRat 12 100),
       ("Fibrosis", mkRat 12 100), ("Hernia", mkRat 12 100),
       ("Infiltration", mkRat 12 100), ("Mass", mkRat 12 100),
       ("Nodule", mkRat 12 100), ("Pleural_Thickening", mkRat 12 100),
       ("Pneumonia", mkRat 12 100), ("Pneumothorax", mkRat 12 100)] :=
  predict_canned_abnormal (fun _ => true) (fun _ _ => mkRat 1 2)
    ⟨some "chest_image1.png", [0]⟩ ⟨none, [1]⟩ (by decide) (by decide) (by decide)

/-- C4: for every valid request whose lowercased filename contains image3
but neither image1 nor image2, all 14 probabilities are 0.08 and the
findings list is empty. -/
theorem predict_canned_normal (decodable : List Nat → Bool)
    (rng : Nat → Nat → ℚ) (cxr ecg : Upload)
    (hd : decodable cxr.content = true) (he : ecg.content.length ≠ 0)
    (h12 : (strContains (lowerName cxr) "image1" ||
      strContains (lowerName cxr) "image2") = false)
    (h3 : strContains (lowerName cxr) "image3" = true) :
    predict decodable rng cxr ecg = Response.ok true []
      [("Atelectasis", mkRat 8 100), ("Cardiomegaly", mkRat 8 100),
       ("Consolidation", mkRat 8 100), ("Edema", mkRat 8 100),
       ("Effusion", mkRat 8 100), ("Emphysema", mkRat 8 100),
       ("Fibrosis", mkRat 8 100), ("Hernia", mkRat 8 100),
       ("Infiltration", mkRat 8 100), ("Mass", mkRat 8 100),
       ("Nodule", mkRat 8 100), ("Pleural_Thickening", mkRat 8 100),
       ("Pneumonia", mkRat 8 100), ("Pneumothorax", mkRat 8 100)] := by
  rw [predict_normal decodable rng cxr ecg hd he h12 h3]
  decide

/-- Witness for C4: Scenario B, filename scan_image3.jpg. -/
theorem predict_canned_normal_witness :
    predict (fun _ => true) (fun _ _ => mkRat 1 2)
      ⟨some "scan_image3.jpg", [0]⟩ ⟨none, [1]⟩ = Response.ok true []
      [("Atelectasis", mkRat 8 100), ("Cardiomegaly", mkRat 8 100),
       ("Consolidation", mkRat 8 100), ("Edema", mkRat 8 100),
       ("Effusion", mkRat 8 100), ("Emphysema", mkRat 8 100),
       ("Fibrosis", mkRat 8 100), ("Hernia", mkRat 8 100),
       ("Infiltration", mkRat 8 100), ("Mass", mkRat 8 100),
       ("Nodule", mkRat 8 100), ("Pleural_Thickening", mkRat 8 100),
       ("Pneumonia", mkRat 8 100), ("Pneumothorax", mkRat 8 100)] :=
  predict_canned_normal (fun _ => true) (fun _ _ => mkRat 1 2)
    ⟨some "scan_image3.jpg", [0]⟩ ⟨none, [1]⟩
    (by decide) (by decide) (by decide) (by decide)

/-- C5: on the fallback path the seed is the sum of the two payload byte
lengths, draw i of the generator seeded with it is assigned to label i in
CLASS_LABELS order, each draw lies in [0,1) for a generator honouring the
numpy contract, payload lengths 1000 and 500 give seed 1500, and any second
fallback request with pairwise equal payload lengths gets the identical
response whatever its payload contents. -/
theorem predict_fallback_seeded (decodable : List Nat → Bool)
    (rng : Nat → Nat → ℚ) (cxr ecg cxr2 ecg2 : Upload)
    (hrng : ∀ s i, 0 ≤ rng s i ∧ rng s i < 1)
    (hd : decodable cxr.content = true) (he : ecg.content.length ≠ 0)
    (hname : cannedName (lowerName cxr) = false) :
    predict decodable rng cxr ecg =
      Response.ok true
        (fallbackFindings rng (cxr.content.length + ecg.content.length))
        (CLASS_LABELS.zip ((List.range CLASS_LABELS.length).map
          (fun i => rng (cxr.content.length + ecg.content.length) i))) ∧
    (∀ kv ∈ fallbackPairs rng (fallbackSeed cxr ecg), 0 ≤ kv.2 ∧ kv.2 < 1) ∧
    (cxr.content.length = 1000 → ecg.content.length = 500 →
      fallbackSeed cxr ecg = 1500) ∧
    (decodable cxr2.content = true → ecg2.content.length ≠ 0 →
      cannedName (lowerName cxr2) = false →
      cxr2.content.length = cxr.content.length →
      ecg2.content.length = ecg.content.length →
      predict decodable rng cxr2 ecg2 = predict decodable rng cxr ecg) := by
  have hname' : ((strContains (lowerName cxr) "image1" ||
      strContains (lowerName cxr) "image2") ||
      strContains (lowerName cxr) "image3") = false := hname
  obtain ⟨h12f, h3f⟩ := Bool.or_eq_false_iff.mp hname'
  refine ⟨?_, ?_, ?_, ?_⟩
  · rw [predict_fallback decodable rng cxr ecg hd he h12f h3f]
    rfl
  · rintro ⟨a, b⟩ hkv
    have hb := (List.of_mem_zip hkv).2
    simp only [List.mem_map, List.mem_range] at hb
    obtain ⟨i, _, rfl⟩ := hb
    exact hrng _ i
  · intro hc hec
    simp [fallbackSeed, hc, hec]
  · intro hd2 he2 hname2 hlc hle
    have hname2' : ((strContains (lowerName cxr2) "image1" ||
        strContains (lowerName cxr2) "image2") ||
        strContains (lowerName cxr2) "image3") = false := hname2
    obtain ⟨g12f, g3f⟩ := Bool.or_eq_false_iff.mp hname2'
    rw [predict_fallback decodable rng cxr ecg hd he h12f h3f,
      predict_fallback decodable rng cxr2 ecg2 hd2 he2 g12f g3f]
    simp [fallbackSeed, hlc, hle]

/-- Witness for C5: Scenario C, payload lengths 1000 and 500, a second
request with different bytes of the same lengths. -/
theorem predict_fallback_seeded_witness :
    predict (fun _ => true) (fun _ _ => mkRat 1 2)
      ⟨some "random.bmp", List.replicate 1000 7⟩ ⟨some "e.csv", List.replicate 500 3⟩ =
      Response.ok true
        (fallbackFindings (fun _ _ => mkRat 1 2)
          ((List.replicate 1000 7).length + (List.replicate 500 3).length))
        (CLASS_LABELS.zip ((List.range CLASS_LABELS.length).map
          (fun i => (fun _ _ => mkRat 1 2)
            ((List.replicate 1000 7).length + (List.replicate 500 3).length) i))) ∧
    (∀ kv ∈ fallbackPairs (fun _ _ => mkRat 1 2)
        (fallbackSeed ⟨some "random.bmp", List.replicate 1000 7⟩
          ⟨some "e.csv", List.replicate 500 3⟩), 0 ≤ kv.2 ∧ kv.2 < 1) ∧
    ((List.replicate 1000 (7 : Nat)).length = 1000 →
      (List.replicate 500 (3 : Nat)).length = 500 →
      fallbackSeed ⟨some "random.bmp", List.replicate 1000 7⟩
        ⟨some "e.csv", List.replicate 500 3⟩ = 1500) ∧
    ((fun _ => true) (List.replicate 1000 (9 : Nat)) = true →
      (List.replicate 500 (1 : Nat)).length ≠ 0 →
      cannedName (lowerName ⟨some "other.bmp", List.replicate 1000 9⟩) = false →
      (List.replicate 1000 (9 : Nat)).length = (List.replicate 1000 (7 : Nat)).length →
      (List.replicate 500 (1 : Nat)).length = (List.replicate 500 (3 : Nat)).length →
      predict (fun _ => true) (fun _ _ => mkRat 1 2)
        ⟨some "other.bmp", List.replicate 1000 9⟩ ⟨none, List.replicate 500 1⟩ =
      predict (fun _ => true) (fun _ _ => mkRat 1 2)
        ⟨some "random.bmp", List.replicate 1000 7⟩ ⟨some "e.csv", List.replicate 500 3⟩) :=
  predict_fallback_seeded (fun _ => true) (fun _ _ => mkRat 1 2)
    ⟨some "random.bmp", List.replicate 1000 7⟩ ⟨some "e.csv", List.replicate 500 3⟩
    ⟨some "other.bmp", List.replicate 1000 9⟩ ⟨none, List.replicate 500 1⟩
    (fun _ _ => (by decide : (0 : ℚ) ≤ mkRat 1 2 ∧ mkRat 1 2 < 1))
    (by decide) (by decide) (by decide)

/-- C6: validation is ordered and fail-fast. If the image payload is not
decodable, the response is the 400 error with detail Invalid CXR image, for
every signal payload (the signal is not consulted, and the error body holds
only the detail). If the image is decodable, the response is the 400 error
with detail Invalid ECG data exactly when the signal payload has zero
length. -/
theorem predict_validation_errors (decodable : List Nat → Bool)
    (rng : Nat → Nat → ℚ) (cxr ecg : Upload) :
    (decodable cxr.content = false →
      ∀ ecg2 : Upload, predict decodable rng cxr ecg2 =
        Response.error 400 "Invalid CXR image") ∧
    (decodable cxr.content = true →
      (predict decodable rng cxr ecg = Response.error 400 "Invalid ECG data" ↔
        ecg.content.length = 0)) := by
  constructor
  · intro hd ecg2
    exact predict_not_decodable decodable rng cxr ecg2 hd
  · intro hd
    constructor
    · intro heq
      by_contra he
      by_cases h12 : (strContains (lowerName cxr) "image1" ||
          strContains (lowerName cxr) "image2") = true
      · rw [predict_abnormal decodable rng cxr ecg hd he h12] at heq
        exact Response.noConfusion heq
      · have h12f : (strContains (lowerName cxr) "image1" ||
            strContains (lowerName cxr) "image2") = false := by simpa using h12
        by_cases h3 : strContains (lowerName cxr) "image3" = true
        · rw [predict_normal decodable rng cxr ecg hd he h12f h3] at heq
          exact Response.noConfusion heq
        · have h3f : strContains (lowerName cxr) "image3" = false := by
            simpa using h3
          rw [predict_fallback decodable rng cxr ecg hd he h12f h3f] at heq
          exact Response.noConfusion heq
    · intro he
      exact predict_empty_ecg decodable rng cxr ecg hd he

/-- Witness for C6: an undecodable image is rejected even with a canned
filename, and a decodable image with an empty signal is rejected with the
signal error. -/
theorem predict_validation_errors_witness :
    predict (fun b => !b.isEmpty) (fun _ _ => mkRat 1 2)
      ⟨some "chest_image1.png", []⟩ ⟨none, [1]⟩ =
      Response.error 400 "Invalid CXR image" ∧
    predict (fun b => !b.isEmpty) (fun _ _ => mkRat 1 2)
      ⟨some "x.png", [0]⟩ ⟨none, []⟩ =
      Response.error 400 "Invalid ECG data" :=
  ⟨(predict_validation_errors (fun b => !b.isEmpty) (fun _ _ => mkRat 1 2)
      ⟨some "chest_image1.png", []⟩ ⟨none, [1]⟩).1 (by decide) ⟨none, [1]⟩,
   ((predict_validation_errors (fun b => !b.isEmpty) (fun _ _ => mkRat 1 2)
      ⟨some "x.png", [0]⟩ ⟨none, []⟩).2 (by decide)).mpr (by decide)⟩

/-- C7: the handler is deterministic. Two runs on identical inputs, with
image decoding and the seeded generator behaving as functions of their
arguments (as PIL and a freshly seeded numpy generator do), produce
identical responses. -/
theorem predict_deterministic (d1 d2 : List Nat → Bool) (r1 r2 : Nat → Nat → ℚ)
    (cxr ecg : Upload)
    (hdec : ∀ b, d1 b = d2 b) (hrng : ∀ s i, r1 s i = r2 s i) :
    predict d1 r1 cxr ecg = predict d2 r2 cxr ecg := by
  have h1 : d1 = d2 := funext hdec
  have h2 : r1 = r2 := funext fun s => funext fun i => hrng s i
  rw [h1, h2]

/-- Witness for C7 at a concrete request repeated twice. -/
theorem predict_deterministic_witness :
    predict (fun _ => true) (fun _ _ => mkRat 1 2) ⟨some "a.png", [0]⟩ ⟨none, [1]⟩ =
    predict (fun _ => true) (fun _ _ => mkRat 1 2) ⟨some "a.png", [0]⟩ ⟨none, [1]⟩ :=
  predict_deterministic (fun _ => true) (fun _ => true)
    (fun _ _ => mkRat 1 2) (fun _ _ => mkRat 1 2)
    ⟨some "a.png", [0]⟩ ⟨none, [1]⟩ (fun _ => rfl) (fun _ _ => rfl)

/-- C8: every invocation of /health, wherever it occurs in a request
history, yields status 200 with body status ok, independently of the
requests before and after it; it has no failure modes. -/
theorem health_history_independent (decodable : List Nat → Bool)
    (rng : Nat → Nat → ℚ) (prior rest : List Request) :
    serve decodable rng (prior ++ Request.healthReq :: rest) =
      serve decodable rng prior ++
        Reply.healthReply 200 [("status", "ok")] :: serve decodable rng rest := by
  simp [serve, handle, health]

/-- C9: on the canned filename paths the response does not depend on the
payloads. Two valid requests with the same declared image filename, that
filename matching a canned pattern, receive identical responses whatever
their image bytes, signal bytes, or signal filenames. -/
theorem predict_canned_payload_independent (decodable : List Nat → Bool)
    (rng : Nat → Nat → ℚ) (cxr1 ecg1 cxr2 ecg2 : Upload)
    (hfn : cxr1.filename = cxr2.filename)
    (hcanned : cannedName (lowerName cxr1) = true)
    (hd1 : decodable cxr1.content = true) (hd2 : decodable cxr2.content = true)
    (he1 : ecg1.content.length ≠ 0) (he2 : ecg2.content.length ≠ 0) :
    predict decodable rng cxr1 ecg1 = predict decodable rng cxr2 ecg2 := by
  have hl : lowerName cxr1 = lowerName cxr2 := by simp [lowerName, hfn]
  by_cases h12 : (strContains (lowerName cxr1) "image1" ||
      strContains (lowerName cxr1) "image2") = true
  · rw [predict_abnormal decodable rng cxr1 ecg1 hd1 he1 h12,
      predict_abnormal decodable rng cxr2 ecg2 hd2 he2 (by rw [← hl]; exact h12)]
  · have h12f : (strContains (lowerName cxr1) "image1" ||
        strContains (lowerName cxr1) "image2") = false := by simpa using h12
    have h3 : strContains (lowerName cxr1) "image3" = true := by
      have hc : ((strContains (lowerName cxr1) "image1" ||
          strContains (lowerName cxr1) "image2") ||
          strContains (lowerName cxr1) "image3") = true := hcanned
      rw [h12f] at hc
      simpa using hc
    rw [predict_normal decodable rng cxr1 ecg1 hd1 he1 h12f h3,
      predict_normal decodable rng cxr2 ecg2 hd2 he2
        (by rw [← hl]; exact h12f) (by rw [← hl]; exact h3)]

/-- Witness for C9: same canned filename, different payload bytes and
lengths on both uploads. -/
theorem predict_canned_payload_independent_witness :
    predict (fun _ => true) (fun _ _ => mkRat 1 2)
      ⟨some "b_IMAGE2.png", [0, 1]⟩ ⟨none, [5]⟩ =
    predict (fun _ => true) (fun _ _ => mkRat 1 2)
      ⟨some "b_IMAGE2.png", [9, 9, 9]⟩ ⟨some "z.csv", [1, 2]⟩ :=
  predict_canned_payload_independent (fun _ => true) (fun _ _ => mkRat 1 2)
    ⟨some "b_IMAGE2.png", [0, 1]⟩ ⟨none, [5]⟩
    ⟨some "b_IMAGE2.png", [9, 9, 9]⟩ ⟨some "z.csv", [1, 2]⟩
    (by decide) (by decide) (by decide) (by decide) (by decide) (by decide)

/-- C10: validation precedes filename dispatch. Even when the lowercased
filename matches a canned pattern, an undecodable image still gets the image
error, and a decodable image with an empty signal still gets the signal
error; no probability map is computed. -/
theorem predict_validation_before_dispatch (decodable : List Nat → Bool)
    (rng : Nat → Nat → ℚ) (cxr ecg : Upload)
    (_hcanned : cannedName (lowerName cxr) = true) :
    (decodable cxr.content = false →
      predict decodable rng cxr ecg = Response.error 400 "Invalid CXR image") ∧
    (decodable cxr.content = true → ecg.content.length = 0 →
      predict decodable rng cxr ecg = Response.error 400 "Invalid ECG data") :=
  ⟨fun hd => predict_not_decodable decodable rng cxr ecg hd,
   fun hd he => predict_empty_ecg decodable rng cxr ecg hd he⟩

/-- Witness for C10: the canned filename scan_image3.jpg with an empty
signal payload is still rejected. -/
theorem predict_validation_before_dispatch_witness :
    predict (fun _ => true) (fun _ _ => mkRat 1 2)
      ⟨some "scan_image3.jpg", [0]⟩ ⟨none, []⟩ =
      Response.error 400 "Invalid ECG data" :=
  (predict_validation_before_dispatch (fun _ => true) (fun _ _ => mkRat 1 2)
    ⟨some "scan_image3.jpg", [0]⟩ ⟨none, []⟩ (by decide)).2 (by decide) (by decide)

